import Mathlib

/-!
Verification of the progchain server's conversational core.

This file gives a shallow embedding, in Lean, of the retrieval-augmented
conversational memory subsystem of the progchain repository:

* the buffered streaming generator `BaseChatSystem._generate_text` /
  `generate_response` / `stop_generation` (src/server/src/core/chat/chat.py),
* the memory adapter `VectorDB` with its TTL query cache
  (src/server/src/core/vector/store.py),
* the orchestrator `ResearchAssistant.generate_answer` and its
  `_reflect_db_changes` cleanup (src/server/src/features/explore/chat.py),
* the thread chat `ThreadIDChat.stream_chat` cleanup
  (src/server/src/features/threads/chat.py),
* the session registries (`ResearchAssistantService._load_chat_messages`,
  `ThreadContentChatService.__get_chat_generator`).

Python strings are modelled as Lean `String`, the model stream as a list of
events (a text fragment, optionally preceded by an external call to
`stop_generation`, or a point where the underlying stream raises), time as
`Nat` ticks, and the external model / embedding collaborators as function
parameters.  Each `async` method with no internal `await` is embedded as a
single state transformation, matching the cooperative (single logical
worker) scheduling model of the server.
-/

set_option maxRecDepth 8000

namespace ProgChain

/-! ### Core streaming generator: `BaseChatSystem` (src/server/src/core/chat/chat.py) -/

/-- `BaseChatSystem.DEFAULT_BUFFER_SIZE = 100` (chat.py line 66). -/
def DEFAULT_BUFFER_SIZE : Nat := 100

/-- The two instance flags of `BaseChatSystem` that play a role in
cancellation.  The source uses two *distinct* attribute names:
`self._stop_generating` (written by `__init__` and by `stop_generation()`)
and `self._stop_generation` (written and read by `_generate_text`).  Both
are modelled, exactly as named in the source. -/
structure SysState where
  stop_generating : Bool
  stop_generation : Bool
  deriving Repr, DecidableEq

/-- `BaseChatSystem.stop_generation` (chat.py lines 155-157):
`self._stop_generating = True`. -/
def stop_generation_call (s : SysState) : SysState :=
  { s with stop_generating := true }

/-- One event of the model's incremental output stream as observed by the
`async for` loop of `_generate_text`: either the next text fragment arrives
(`frag`), with `stopBefore` recording whether the environment invoked
`stop_generation()` since the previous fragment, or pulling the next
fragment raises a model error (`err`). -/
inductive Ev
  | frag (stopBefore : Bool) (text : String)
  | err
  deriving Repr

/-- How the `async for` loop of `_generate_text` was left: the stream was
exhausted normally, the loop hit `break` in the stop-flag branch, or the
stream raised. -/
inductive ExitKind
  | exhausted
  | broke
  | errored
  deriving Repr, DecidableEq

/-- Result of running the `async for` loop of `_generate_text`: the chunks
yielded inside the loop, the buffer contents at loop exit, the flag state at
loop exit, and how the loop exited. -/
structure LoopRes where
  out : List String
  buf : String
  st : SysState
  kind : ExitKind
  deriving Repr, DecidableEq

/-- The `async for chunk in chain.astream(...)` loop body of
`BaseChatSystem._generate_text` (chat.py lines 179-188):

```
async for chunk in chain.astream(chain_input):
    if self._stop_generation:
        if buffer:
            yield buffer
        break
    buffer += chunk
    if len(buffer) >= self.DEFAULT_BUFFER_SIZE:
        yield buffer
        buffer = ""
```

Note the loop reads `self._stop_generation` (not `_stop_generating`), and
that the `break` branch does not reset `buffer`. -/
def genLoop (T : Nat) : SysState → List Ev → String → LoopRes
  | s, [], buf => ⟨[], buf, s, .exhausted⟩
  | s, .err :: _, buf => ⟨[], buf, s, .errored⟩
  | s, .frag stopB f :: rest, buf =>
    let s1 := if stopB then stop_generation_call s else s
    if s1.stop_generation then
      ⟨if buf = "" then [] else [buf], buf, s1, .broke⟩
    else
      let b := buf ++ f
      if T ≤ b.length then
        let r := genLoop T s1 rest ""
        { r with out := b :: r.out }
      else
        genLoop T s1 rest b

/-- Whether `_generate_text` terminated normally or propagated a model
error to its caller. -/
inductive Outcome
  | completed
  | failed
  deriving Repr, DecidableEq

/-- `BaseChatSystem._generate_text` (chat.py lines 165-194) for a given
event stream: sets `self._stop_generation = False`, runs the buffering
loop, then—unless the stream raised, in which case the exception propagates
(there is no `except` clause) and the trailing flush is skipped—flushes any
non-empty remaining buffer (`if buffer: yield buffer`).  The `finally`
block resets `self._stop_generation = False` on every path.  Returns the
yielded chunks, the final flag state, and the outcome. -/
def generate_text (T : Nat) (s0 : SysState) (evs : List Ev) :
    List String × SysState × Outcome :=
  let r := genLoop T { s0 with stop_generation := false } evs ""
  if r.kind = ExitKind.errored then
    (r.out, { r.st with stop_generation := false }, Outcome.failed)
  else
    (r.out ++ (if r.buf = "" then [] else [r.buf]),
     { r.st with stop_generation := false }, Outcome.completed)

/-- An event stream that delivers the given fragments with no external
`stop_generation()` call and no model error. -/
def fragEvs (ts : List String) : List Ev := ts.map (Ev.frag false)

/-- Concatenation of a list of strings, in order (`"".join(...)`). -/
def joinStr : List String → String
  | [] => ""
  | s :: l => s ++ joinStr l

/-! ### Basic string and arithmetic helpers -/

theorem str_length_zero_iff (s : String) : s.length = 0 ↔ s = "" := by
  cases s with
  | mk d => cases d <;> simp [String.length, String.ext_iff]

theorem joinStr_append (l₁ l₂ : List String) :
    joinStr (l₁ ++ l₂) = joinStr l₁ ++ joinStr l₂ := by
  induction l₁ with
  | nil => simp [joinStr]
  | cons x l ih => simp [joinStr, ih, String.append_assoc]

/-- `⌈N / T⌉` written with natural division, split into quotient and a
remainder indicator. -/
theorem ceil_div_split (N T : Nat) (hT : 0 < T) :
    N / T + (if N % T = 0 then 0 else 1) = (N + T - 1) / T := by
  have hd := Nat.div_add_mod N T
  have hr : N % T < T := Nat.mod_lt _ hT
  by_cases h0 : N % T = 0
  · have hN : N + T - 1 = T * (N / T) + (T - 1) := by omega
    have h1 : (T * (N / T) + (T - 1)) / T = N / T + (T - 1) / T :=
      Nat.mul_add_div hT _ _
    have h2 : (T - 1) / T = 0 := Nat.div_eq_of_lt (by omega)
    rw [if_pos h0, hN, h1, h2]
  · have hN : N + T - 1 = T * (N / T + 1) + (N % T - 1) := by
      have hm : T * (N / T + 1) = T * (N / T) + T * 1 := Nat.mul_add T (N / T) 1
      have ho : T * 1 = T := Nat.mul_one T
      omega
    have h1 : (T * (N / T + 1) + (N % T - 1)) / T
        = N / T + 1 + (N % T - 1) / T := Nat.mul_add_div hT _ _
    have h2 : (N % T - 1) / T = 0 := Nat.div_eq_of_lt (by omega)
    rw [if_neg h0, hN, h1, h2]

/-! ### Loop invariants of `_generate_text` -/

/-- One step of `genLoop` on a fragment event, for any run in which the
checked flag `_stop_generation` is false (which `generate_text` makes true
at entry and which no code ever makes false, `stop_generation()` writing
the *other* attribute): the `break` branch is dead. -/
theorem genLoop_frag_step (T : Nat) (s : SysState)
    (hs : s.stop_generation = false) (f : String)
    (rest : List Ev) (buf : String) :
    genLoop T s (Ev.frag false f :: rest) buf =
      (if T ≤ (buf ++ f).length then
        { genLoop T s rest "" with out := (buf ++ f) :: (genLoop T s rest "").out }
      else genLoop T s rest (buf ++ f)) := by
  simp [genLoop, hs]

/-- One step of `genLoop` on a fragment event preceded by an external
`stop_generation()` call: the call flips `_stop_generating`, but the loop's
check reads `_stop_generation`, so processing continues exactly as without
the call. -/
theorem genLoop_frag_stop_step (T : Nat) (s : SysState)
    (hs : s.stop_generation = false) (f : String)
    (rest : List Ev) (buf : String) :
    genLoop T s (Ev.frag true f :: rest) buf =
      (if T ≤ (buf ++ f).length then
        { genLoop T (stop_generation_call s) rest ""
            with out := (buf ++ f) :: (genLoop T (stop_generation_call s) rest "").out }
      else genLoop T (stop_generation_call s) rest (buf ++ f)) := by
  simp [genLoop, hs, stop_generation_call]

/-- Invariant of the buffering loop on a stop-free, error-free fragment
stream: the loop exhausts the stream, leaves the flags untouched, every
chunk yielded inside the loop is at least `T` long, and the yielded chunks
followed by the final buffer spell out the initial buffer followed by all
fragments. -/
theorem genLoop_fragEvs (T : Nat) (s : SysState)
    (hs : s.stop_generation = false) (ts : List String) : ∀ buf : String,
    (genLoop T s (fragEvs ts) buf).st = s
    ∧ (genLoop T s (fragEvs ts) buf).kind = ExitKind.exhausted
    ∧ joinStr (genLoop T s (fragEvs ts) buf).out
        ++ (genLoop T s (fragEvs ts) buf).buf = buf ++ joinStr ts
    ∧ (∀ c ∈ (genLoop T s (fragEvs ts) buf).out, T ≤ c.length) := by
  induction ts with
  | nil =>
    intro buf
    simp [genLoop, fragEvs, joinStr]
  | cons t ts ih =>
    intro buf
    have hcons : fragEvs (t :: ts) = Ev.frag false t :: fragEvs ts := rfl
    rw [hcons, genLoop_frag_step T s hs t (fragEvs ts) buf]
    by_cases h : T ≤ (buf ++ t).length
    · rcases ih "" with ⟨ih1, ih2, ih3, ih4⟩
      rw [if_pos h]
      refine ⟨ih1, ih2, ?_, ?_⟩
      · simp only [joinStr]
        rw [String.append_assoc, ih3, String.empty_append,
          String.append_assoc]
      · intro c hc
        rcases List.mem_cons.mp hc with hc | hc
        · exact hc ▸ h
        · exact ih4 c hc
    · rcases ih (buf ++ t) with ⟨ih1, ih2, ih3, ih4⟩
      rw [if_neg h]
      refine ⟨ih1, ih2, ?_, ih4⟩
      rw [ih3, String.append_assoc]
      simp only [joinStr]

/-- Chunk-count invariant of the buffering loop when every incoming
fragment is a single character: the buffer grows by one character per
fragment and is flushed exactly when it reaches `T`, so the loop emits
`⌊(|buf| + n) / T⌋` chunks and leaves `(|buf| + n) mod T` characters in the
buffer. -/
theorem genLoop_count (T : Nat) (hT : 0 < T) (s : SysState)
    (hs : s.stop_generation = false) :
    ∀ ts : List String, (∀ t ∈ ts, String.length t = 1) →
    ∀ buf : String, buf.length < T →
      (genLoop T s (fragEvs ts) buf).out.length = (buf.length + ts.length) / T
      ∧ (genLoop T s (fragEvs ts) buf).buf.length
          = (buf.length + ts.length) % T := by
  intro ts
  induction ts with
  | nil =>
    intro _ buf hb
    simp [genLoop, fragEvs, Nat.div_eq_of_lt hb, Nat.mod_eq_of_lt hb]
  | cons t ts ih =>
    intro hlen buf hb
    have ht : t.length = 1 := hlen t (List.mem_cons_self t ts)
    have hts : ∀ u ∈ ts, String.length u = 1 := fun u hu =>
      hlen u (List.mem_cons_of_mem t hu)
    have hbt : (buf ++ t).length = buf.length + 1 := by
      rw [String.length_append, ht]
    have hempty : ("" : String).length = 0 := rfl
    have hcons : fragEvs (t :: ts) = Ev.frag false t :: fragEvs ts := rfl
    rw [hcons, genLoop_frag_step T s hs t (fragEvs ts) buf]
    by_cases h : T ≤ (buf ++ t).length
    · have hbT : buf.length + 1 = T := by omega
      rcases ih hts "" (by rw [hempty]; omega) with ⟨ih1, ih2⟩
      rw [hempty] at ih1 ih2
      rw [if_pos h]
      have hsum : buf.length + (t :: ts).length = ts.length + T := by
        rw [List.length_cons]; omega
      constructor
      · show (genLoop T s (fragEvs ts) "").out.length + 1
            = (buf.length + (t :: ts).length) / T
        rw [hsum, Nat.add_div_right _ hT, ih1, Nat.zero_add]
      · show (genLoop T s (fragEvs ts) "").buf.length
            = (buf.length + (t :: ts).length) % T
        rw [hsum, Nat.add_mod_right, ih2, Nat.zero_add]
    · have hlt : (buf ++ t).length < T := by omega
      rcases ih hts (buf ++ t) hlt with ⟨ih1, ih2⟩
      rw [if_neg h]
      have hsum : (buf ++ t).length + ts.length
          = buf.length + (t :: ts).length := by
        rw [hbt, List.length_cons]; omega
      rw [ih1, ih2, hsum]
      exact ⟨rfl, rfl⟩

/-- For a stop-free, error-free fragment stream, `_generate_text` completes
and its chunks concatenate to the full generated text. -/
theorem generate_text_fragEvs (T : Nat) (s0 : SysState) (ts : List String) :
    (generate_text T s0 (fragEvs ts)).2.2 = Outcome.completed
    ∧ joinStr (generate_text T s0 (fragEvs ts)).1 = joinStr ts := by
  have hs : ({ s0 with stop_generation := false } : SysState).stop_generation
      = false := rfl
  rcases genLoop_fragEvs T { s0 with stop_generation := false } hs ts ""
    with ⟨_, h2, h3, _⟩
  rw [String.empty_append] at h3
  simp only [generate_text, h2]
  have hne : ExitKind.exhausted ≠ ExitKind.errored := by decide
  rw [if_neg hne]
  refine ⟨rfl, ?_⟩
  simp only
  rw [joinStr_append]
  by_cases hb : (genLoop T { s0 with stop_generation := false }
      (fragEvs ts) "").buf = ""
  · rw [if_pos hb]
    rw [hb, String.append_empty] at h3
    simpa [joinStr, String.append_empty] using h3
  · rw [if_neg hb]
    simp only [joinStr]
    rw [String.append_empty]
    exact h3

/-- Running the buffering loop on fragments followed by a point where the
model stream raises: the loop is left with `errored`, having yielded
exactly the full-buffer flushes of the fragments before the error, and the
partial buffer content is carried out only in `buf` (never yielded,
because the exception skips the trailing `if buffer: yield buffer`). -/
theorem genLoop_err_run (T : Nat) (s : SysState)
    (hs : s.stop_generation = false) (ts : List String) (rest : List Ev) :
    ∀ buf : String,
      (genLoop T s (fragEvs ts ++ Ev.err :: rest) buf).out
          = (genLoop T s (fragEvs ts) buf).out
      ∧ (genLoop T s (fragEvs ts ++ Ev.err :: rest) buf).kind
          = ExitKind.errored
      ∧ (genLoop T s (fragEvs ts ++ Ev.err :: rest) buf).st = s := by
  induction ts with
  | nil =>
    intro buf
    simp [genLoop, fragEvs]
  | cons t ts ih =>
    intro buf
    have hc1 : fragEvs (t :: ts) ++ Ev.err :: rest
        = Ev.frag false t :: (fragEvs ts ++ Ev.err :: rest) := rfl
    have hc2 : fragEvs (t :: ts) = Ev.frag false t :: fragEvs ts := rfl
    rw [hc1, hc2, genLoop_frag_step T s hs t _ buf,
      genLoop_frag_step T s hs t _ buf]
    by_cases h : T ≤ (buf ++ t).length
    · rw [if_pos h, if_pos h]
      rcases ih "" with ⟨iho, ihk, ihs⟩
      exact ⟨by simp [iho], by simp [ihk], by simp [ihs]⟩
    · rw [if_neg h, if_neg h]
      exact ih (buf ++ t)

/-- The chunks and the outcome produced by the buffering loop do not depend
on the flag state it starts from, provided the checked flag is false (which
`generate_text` enforces and nothing un-enforces): a later generation on
the same session behaves as on a fresh one. -/
theorem genLoop_state_indep (T : Nat) :
    ∀ (evs : List Ev) (s s' : SysState) (buf : String),
      s.stop_generation = false → s'.stop_generation = false →
      (genLoop T s evs buf).out = (genLoop T s' evs buf).out
      ∧ (genLoop T s evs buf).buf = (genLoop T s' evs buf).buf
      ∧ (genLoop T s evs buf).kind = (genLoop T s' evs buf).kind := by
  intro evs
  induction evs with
  | nil =>
    intro s s' buf hs hs'
    simp [genLoop]
  | cons e rest ih =>
    intro s s' buf hs hs'
    cases e with
    | err => simp [genLoop]
    | frag stopB f =>
      cases stopB
      · rw [genLoop_frag_step T s hs f rest buf,
          genLoop_frag_step T s' hs' f rest buf]
        by_cases h : T ≤ (buf ++ f).length
        · rw [if_pos h, if_pos h]
          rcases ih s s' "" hs hs' with ⟨h1, h2, h3⟩
          exact ⟨by simp [h1], by simp [h2], by simp [h3]⟩
        · rw [if_neg h, if_neg h]
          exact ih s s' (buf ++ f) hs hs'
      · rw [genLoop_frag_stop_step T s hs f rest buf,
          genLoop_frag_stop_step T s' hs' f rest buf]
        have hs1 : (stop_generation_call s).stop_generation = false := hs
        have hs1' : (stop_generation_call s').stop_generation = false := hs'
        by_cases h : T ≤ (buf ++ f).length
        · rw [if_pos h, if_pos h]
          rcases ih (stop_generation_call s) (stop_generation_call s') ""
            hs1 hs1' with ⟨h1, h2, h3⟩
          exact ⟨by simp [h1], by simp [h2], by simp [h3]⟩
        · rw [if_neg h, if_neg h]
          exact ih _ _ (buf ++ f) hs1 hs1'

/-- `_generate_text` yields the same chunks with the same outcome whatever
instance-flag state the session is in when it starts. -/
theorem generate_text_state_indep (T : Nat) (s s' : SysState)
    (evs : List Ev) :
    (generate_text T s evs).1 = (generate_text T s' evs).1
    ∧ (generate_text T s evs).2.2 = (generate_text T s' evs).2.2 := by
  rcases genLoop_state_indep T evs { s with stop_generation := false }
    { s' with stop_generation := false } "" rfl rfl with ⟨h1, h2, h3⟩
  constructor <;>
  · simp only [generate_text, h1, h2, h3]
    by_cases hk : (genLoop T { s' with stop_generation := false } evs
        "").kind = ExitKind.errored
    · simp [hk]
    · simp [hk]

/-! ### Claims about the streaming generator -/

/-- A string of `n` copies of a character, for concrete counterexamples. -/
def aChars (n : Nat) : String := String.mk (List.replicate n 'a')

/-- C1 (counterexample): one 250-character fragment arriving at the default
threshold 100 is flushed as a single chunk of 250 characters (the loop
flushes the whole buffer once it has *reached* the threshold), so the
number of emitted chunks is 1, not `ceil(250 / 100) = 3`, although the
concatenation is still the full text. -/
theorem c1_chunk_count_counterexample :
    joinStr (generate_text DEFAULT_BUFFER_SIZE ⟨false, false⟩
        (fragEvs [aChars 250])).1 = aChars 250
    ∧ (generate_text DEFAULT_BUFFER_SIZE ⟨false, false⟩
        (fragEvs [aChars 250])).1.length = 1
    ∧ ((aChars 250).length + DEFAULT_BUFFER_SIZE - 1) / DEFAULT_BUFFER_SIZE
        = 3
    ∧ (1 : Nat) ≠ 3 := by
  refine ⟨?_, rfl, rfl, by decide⟩
  rfl

/-- C1 (amended): for every generation that completes normally (no
cancellation, no model error), the concatenation of the emitted chunks
equals the full generated text with no characters lost or duplicated; and
*when the stream delivers the text in single-character fragments*, the
chunks number exactly `ceil(N / T)` for total length `N` and threshold `T`.
(For larger fragments the count can be lower, see the counterexample:
a chunk is flushed only after a whole fragment is appended.) -/
theorem c1_buffering_law (T : Nat) (hT : 0 < T) (s0 : SysState) :
    (∀ ts : List String,
      joinStr (generate_text T s0 (fragEvs ts)).1 = joinStr ts
      ∧ (generate_text T s0 (fragEvs ts)).2.2 = Outcome.completed)
    ∧ (∀ ts : List String, (∀ t ∈ ts, String.length t = 1) →
      (generate_text T s0 (fragEvs ts)).1.length = (ts.length + T - 1) / T) := by
  constructor
  · intro ts
    rcases generate_text_fragEvs T s0 ts with ⟨h1, h2⟩
    exact ⟨h2, h1⟩
  · intro ts hone
    have hs : ({ s0 with stop_generation := false } : SysState).stop_generation
        = false := rfl
    have hempty : ("" : String).length = 0 := rfl
    rcases genLoop_count T hT _ hs ts hone "" (by rw [hempty]; omega)
      with ⟨hcnt, hbuf⟩
    rw [hempty, Nat.zero_add] at hcnt hbuf
    rcases genLoop_fragEvs T _ hs ts "" with ⟨_, hk, _, _⟩
    simp only [generate_text, hk]
    rw [if_neg (by decide : ¬ ExitKind.exhausted = ExitKind.errored)]
    simp only [List.length_append]
    rw [hcnt, ← ceil_div_split _ _ hT]
    by_cases hb : (genLoop T { s0 with stop_generation := false }
        (fragEvs ts) "").buf = ""
    · rw [if_pos hb]
      have h0 : ts.length % T = 0 := by
        rw [← hbuf, hb]
        rfl
      rw [if_pos h0]
      rfl
    · rw [if_neg hb]
      have h0 : ¬ ts.length % T = 0 := by
        rw [← hbuf]
        intro hzero
        exact hb ((str_length_zero_iff _).mp hzero)
      rw [if_neg h0]
      rfl

/-- Witness for `c1_buffering_law` at threshold 2 with concrete streams. -/
theorem c1_buffering_law_witness :
    (0 : Nat) < 2
    ∧ joinStr (generate_text 2 ⟨false, false⟩ (fragEvs ["ab", "c"])).1
        = joinStr ["ab", "c"]
    ∧ (generate_text 2 ⟨false, false⟩
        (fragEvs ["a", "b", "c"])).1.length = (3 + 2 - 1) / 2 := by
  refine ⟨by decide,
    ((c1_buffering_law 2 (by decide) ⟨false, false⟩).1 ["ab", "c"]).1, ?_⟩
  have h := (c1_buffering_law 2 (by decide) ⟨false, false⟩).2
    ["a", "b", "c"] (by decide)
  have hlen : (["a", "b", "c"] : List String).length = 3 := rfl
  rw [hlen] at h
  exact h

/-- C2: the cancellation claim fails on the code.  `stop_generation()` sets
`self._stop_generating`, but the per-fragment check in `_generate_text`
reads `self._stop_generation`, which the method itself set to `False` and
which nothing ever sets to `True`.  Here `stop()` is invoked before the
very first per-fragment check (K = 0 characters consumed), yet the
generator does not end the stream there: it emits the entire text
`"hello"` (and the final state still carries the never-consulted
`_stop_generating = True`). -/
theorem c2_stop_request_ignored :
    (generate_text DEFAULT_BUFFER_SIZE ⟨false, false⟩
        [Ev.frag true "hello"]).1 = ["hello"]
    ∧ (generate_text DEFAULT_BUFFER_SIZE ⟨false, false⟩
        [Ev.frag true "hello"]).2.1.stop_generating = true
    ∧ ("hello" : String) ≠ "" := by
  refine ⟨rfl, rfl, by decide⟩

/-- C7: if the model stream raises after some fragments, `_generate_text`
propagates the error (outcome `failed`, never a silent normal end), the
characters accumulated since the last flush are not yielded (every emitted
chunk is a full buffer of at least `T` characters), the `finally` block
leaves the checked flag reset, and a subsequent generation on the same
session produces exactly what a fresh session would. -/
theorem c7_model_error_behavior (T : Nat) (s0 : SysState)
    (ts : List String) (rest : List Ev) :
    (generate_text T s0 (fragEvs ts ++ Ev.err :: rest)).2.2 = Outcome.failed
    ∧ (∀ c ∈ (generate_text T s0 (fragEvs ts ++ Ev.err :: rest)).1,
        T ≤ c.length)
    ∧ (generate_text T s0
        (fragEvs ts ++ Ev.err :: rest)).2.1.stop_generation = false
    ∧ (∀ evs' : List Ev,
        (generate_text T
            (generate_text T s0 (fragEvs ts ++ Ev.err :: rest)).2.1 evs').1
          = (generate_text T s0 evs').1
        ∧ (generate_text T
            (generate_text T s0 (fragEvs ts ++ Ev.err :: rest)).2.1 evs').2.2
          = (generate_text T s0 evs').2.2) := by
  have hs : ({ s0 with stop_generation := false } : SysState).stop_generation
      = false := rfl
  rcases genLoop_err_run T _ hs ts rest "" with ⟨ho, hk, _⟩
  rcases genLoop_fragEvs T _ hs ts "" with ⟨_, _, _, hlen⟩
  refine ⟨?_, ?_, ?_, ?_⟩
  · simp only [generate_text, hk]
    rw [if_pos trivial]
  · simp only [generate_text, hk]
    rw [if_pos trivial]
    intro c hc
    rw [ho] at hc
    exact hlen c hc
  · simp only [generate_text, hk]
    rw [if_pos trivial]
  · intro evs'
    exact generate_text_state_indep T _ s0 evs'

/-! ### `BaseChatSystem.generate_response`: per-chunk metadata (chat.py lines 130-153) -/

/-- `ResponseMetadata` (chat.py lines 26-45), with times as `Nat` ticks. -/
structure ResponseMetadata where
  timestamp : Nat
  model_name : String
  latency : Nat
  response_tokens : Nat
  prompt_tokens : Nat
  deriving Repr, DecidableEq

/-- `ChatGenerateOptions` (chat.py lines 13-23), restricted to the fields
`generate_response` reads for metadata. -/
structure ChatGenerateOptions where
  question : String
  extra_instructions : String
  deriving Repr, DecidableEq

/-- The `async for` loop of `generate_response`: for the `i`-th chunk it
yields the pair of the chunk and the metadata object as mutated at that
yield — `latency = time.time() - start_time` (modelled by `timeAt i`),
`response_tokens = len(chunk)`, and `prompt_tokens` fixed at
`len(options.question) + len(options.extra_instructions)`. -/
def attachMeta (opts : ChatGenerateOptions) (modelName : String)
    (start : Nat) (timeAt : Nat → Nat) :
    Nat → List String → List (String × ResponseMetadata)
  | _, [] => []
  | i, c :: cs =>
    (c, { timestamp := start
          model_name := modelName
          latency := timeAt i - start
          response_tokens := c.length
          prompt_tokens := opts.question.length
            + opts.extra_instructions.length })
      :: attachMeta opts modelName start timeAt (i + 1) cs

/-- `BaseChatSystem.generate_response` (chat.py lines 130-153): streams the
chunks of `_generate_text`, pairing each with its metadata. -/
def generate_response (T : Nat) (opts : ChatGenerateOptions)
    (modelName : String) (s0 : SysState) (evs : List Ev) (start : Nat)
    (timeAt : Nat → Nat) : List (String × ResponseMetadata) :=
  attachMeta opts modelName start timeAt 0 (generate_text T s0 evs).1

theorem attachMeta_get? (opts : ChatGenerateOptions) (m : String)
    (start : Nat) (timeAt : Nat → Nat) :
    ∀ (cs : List String) (i j : Nat) (p : String × ResponseMetadata),
      (attachMeta opts m start timeAt i cs).get? j = some p →
      p.2.latency = timeAt (i + j) - start
      ∧ p.2.response_tokens = p.1.length
      ∧ p.2.prompt_tokens
          = opts.question.length + opts.extra_instructions.length := by
  intro cs
  induction cs with
  | nil =>
    intro i j p hp
    simp [attachMeta] at hp
  | cons c cs ih =>
    intro i j p hp
    cases j with
    | zero =>
      simp only [attachMeta, List.get?] at hp
      have hp' := Option.some.inj hp
      rw [← hp']
      exact ⟨rfl, rfl, rfl⟩
    | succ j =>
      have hrec : (attachMeta opts m start timeAt (i + 1) cs).get? j
          = some p := by
        simpa [attachMeta] using hp
      have h := ih (i + 1) j p hrec
      have harith : i + 1 + j = i + (j + 1) := by omega
      rw [harith] at h
      exact h

/-- C9 (counterexample): with chunks of 100 then 50 characters, the
metadata accompanying the second chunk reports `response_tokens = 50`, the
length of that chunk alone — not the running emitted length 150 that the
claim asserts. -/
theorem c9_running_length_counterexample :
    ((generate_response DEFAULT_BUFFER_SIZE ⟨"q", ""⟩ "gpt-4o-mini"
        ⟨false, false⟩ (fragEvs [aChars 100, aChars 50]) 0
        (fun _ => 0)).get? 1).map (fun p => p.2.response_tokens) = some 50
    ∧ (joinStr ((generate_text DEFAULT_BUFFER_SIZE ⟨false, false⟩
        (fragEvs [aChars 100, aChars 50])).1.take 2)).length = 150
    ∧ (50 : Nat) ≠ 150 := by
  refine ⟨rfl, rfl, by decide⟩

/-- C9 (amended): the metadata accompanying each yielded chunk carries the
elapsed time since generation start (`latency`), the length of the
*current* chunk (`response_tokens = len(chunk)`, not the running emitted
length), and the prompt length as the plain character count of the
question plus the extra instructions. -/
theorem c9_metadata_fields (T : Nat) (opts : ChatGenerateOptions)
    (m : String) (s0 : SysState) (evs : List Ev) (start : Nat)
    (timeAt : Nat → Nat) (i : Nat) (p : String × ResponseMetadata)
    (hp : (generate_response T opts m s0 evs start timeAt).get? i = some p) :
    p.2.latency = timeAt i - start
    ∧ p.2.response_tokens = p.1.length
    ∧ p.2.prompt_tokens
        = opts.question.length + opts.extra_instructions.length := by
  have h := attachMeta_get? opts m start timeAt (generate_text T s0 evs).1
    0 i p hp
  rw [Nat.zero_add] at h
  exact h

/-- Witness for `c9_metadata_fields` on a concrete one-chunk stream. -/
theorem c9_metadata_fields_witness :
    (generate_response DEFAULT_BUFFER_SIZE ⟨"hi", "x"⟩ "m" ⟨false, false⟩
        (fragEvs ["okay"]) 5 (fun _ => 9)).get? 0
      = some ("okay", ⟨5, "m", 4, 4, 3⟩)
    ∧ (4 : Nat) = (fun _ : Nat => 9) 0 - 5
    ∧ (4 : Nat) = ("okay" : String).length
    ∧ (3 : Nat) = ("hi" : String).length + ("x" : String).length := by
  have h := c9_metadata_fields DEFAULT_BUFFER_SIZE ⟨"hi", "x"⟩ "m"
    ⟨false, false⟩ (fragEvs ["okay"]) 5 (fun _ => 9) 0
    ("okay", ⟨5, "m", 4, 4, 3⟩) rfl
  exact ⟨rfl, h.1, h.2.1, h.2.2⟩

/-! ### `ThreadIDChat.stream_chat` (src/server/src/features/threads/chat.py, lines 68-94) -/

/-- A `ThreadContentChat` row as created by
`models.ThreadContentChat.create_chat`. -/
structure ThreadChatRecord where
  content_public_id : String
  user_question : String
  ai_answer : String
  deriving Repr, DecidableEq

/-- `ThreadIDChat.stream_chat`: iterates `generate_response`, collecting
each yielded chunk into `contents` and re-yielding it wrapped with the
content id; in the `finally` block — which runs on normal exhaustion, on an
error propagating out of the loop, and when the consumer abandons the
generator — it calls `self.stop_generation()` and persists exactly one
record pairing the question with `"".join(contents)`.

`consumed` models how many of the available chunks were actually delivered
before termination: for a normally drained or mid-stream-error run it is at
least the number of available chunks (`generate_text` already truncates an
errored run at the error point); for a consumer that abandons early it is
the number of chunks consumed before abandonment. -/
def stream_chat (T : Nat) (contentId question : String) (s0 : SysState)
    (evs : List Ev) (consumed : Nat) (records : List ThreadChatRecord) :
    List String × SysState × List ThreadChatRecord :=
  let contents := (generate_text T s0 evs).1.take consumed
  (contents,
   stop_generation_call (generate_text T s0 evs).2.1,
   records ++ [⟨contentId, question, joinStr contents⟩])

/-- C10: however the stream terminates, the guaranteed-cleanup block of
`stream_chat` persists exactly one chat record, pairing the question with
exactly the concatenation of the chunks yielded before termination
(possibly the empty string), and issues the stop-generation call as part
of that cleanup; when the whole stream is drained on a normal run the
persisted answer is the full generated text. -/
theorem c10_stream_chat_cleanup (T : Nat) (cid q : String) (s0 : SysState)
    (evs : List Ev) (consumed : Nat) (records : List ThreadChatRecord) :
    (stream_chat T cid q s0 evs consumed records).2.2
      = records
        ++ [⟨cid, q, joinStr ((generate_text T s0 evs).1.take consumed)⟩]
    ∧ (stream_chat T cid q s0 evs consumed records).2.2.length
        = records.length + 1
    ∧ (stream_chat T cid q s0 evs consumed records).1
        = (generate_text T s0 evs).1.take consumed
    ∧ (stream_chat T cid q s0 evs consumed records).2.1.stop_generating
        = true
    ∧ (∀ ts : List String, evs = fragEvs ts →
        (generate_text T s0 evs).1.length ≤ consumed →
        joinStr (stream_chat T cid q s0 evs consumed records).1
          = joinStr ts) := by
  refine ⟨rfl, by simp [stream_chat], rfl, rfl, ?_⟩
  intro ts hevs hcons
  subst hevs
  have hfull : (generate_text T s0 (fragEvs ts)).1.take consumed
      = (generate_text T s0 (fragEvs ts)).1 :=
    List.take_of_length_le hcons
  have hjoin := (generate_text_fragEvs T s0 ts).2
  show joinStr ((generate_text T s0 (fragEvs ts)).1.take consumed)
      = joinStr ts
  rw [hfull, hjoin]

/-- Witness for `c10_stream_chat_cleanup` on a concrete stream. -/
theorem c10_stream_chat_cleanup_witness :
    (stream_chat 2 "cid" "q" ⟨false, false⟩ (fragEvs ["abc"]) 5 []).2.2
      = [⟨"cid", "q",
          joinStr ((generate_text 2 ⟨false, false⟩
            (fragEvs ["abc"])).1.take 5)⟩]
    ∧ joinStr (stream_chat 2 "cid" "q" ⟨false, false⟩
        (fragEvs ["abc"]) 5 []).1 = joinStr ["abc"] := by
  have h := c10_stream_chat_cleanup 2 "cid" "q" ⟨false, false⟩
    (fragEvs ["abc"]) 5 []
  exact ⟨by simpa using h.1, h.2.2.2.2 ["abc"] rfl (by decide)⟩

/-! ### Memory adapter: `VectorDB` (src/server/src/core/vector/store.py) -/

/-- A Python value passed where a string is expected: either an actual
`str` or some non-string value.  The validation `not x or not
isinstance(x, str)` raises for every non-string (falsy non-strings fail
the first test, truthy ones the second) and for the empty string. -/
inductive PyStr
  | str (s : String)
  | nonStr
  deriving Repr, DecidableEq

/-- The validation used by `query_history` / `add_interaction` /
`add_message`: returns the payload exactly when the input is a non-empty
`str`. -/
def validStr : PyStr → Option String
  | .str s => if s = "" then none else some s
  | .nonStr => none

/-- Error conditions surfaced by `VectorDB` operations:
`ValueError("... must be a non-empty string")`, or a failure propagated
from the embedding / similarity-search collaborator. -/
inductive VErr
  | invalidArgument
  | retrievalFailure
  deriving Repr, DecidableEq

/-- One entry of `self.query_cache = TTLCache(maxsize=100, ttl=60)`:
the query, the stored result, and the insertion time.  `cachetools`
treats an entry as present while `now < storedAt + ttl`. -/
structure CacheEntry where
  query : String
  result : List String
  storedAt : Nat
  deriving Repr, DecidableEq

/-- `ttl=60` from `TTLCache(maxsize=100, ttl=60)` (store.py line 45). -/
def QUERY_CACHE_TTL : Nat := 60

/-- The state of a `VectorDB` instance: the texts held by the FAISS
vector store, the `VectorStoreRetrieverMemory` save-context log (used when
`use_memory` is set), the `use_memory` switch, and the TTL query cache. -/
structure VDB where
  store_texts : List String
  memory_log : List (String × String)
  use_memory : Bool
  cache : List CacheEntry
  deriving Repr, DecidableEq

/-- `query in self.query_cache` / `self.query_cache[query]`: the first
entry for the query whose TTL has not elapsed. -/
def cacheLookup : List CacheEntry → String → Nat → Option (List String)
  | [], _, _ => none
  | e :: rest, q, now =>
    if e.query = q ∧ now < e.storedAt + QUERY_CACHE_TTL then some e.result
    else cacheLookup rest q now

/-- `self.query_cache[query] = result`: stores the entry with the current
time (the `maxsize` bound never evicts the entry just written). -/
def cacheInsert (cache : List CacheEntry) (q : String) (r : List String)
    (now : Nat) : List CacheEntry :=
  ⟨q, r, now⟩ :: cache.filter (fun e => decide (¬ e.query = q))

/-- `VectorDB.query_history` (store.py lines 67-91): validate, consult the
TTL cache, and on a miss run the retrieval path — the memory branch or the
direct `retriever.get_relevant_documents` branch, both of which embed the
query and search the vector store; `searchFn` abstracts that collaborator
call (including its result formatting) as a function of the stored texts
and the query.  The result is cached only after a successful retrieval
(`self.query_cache[query] = result` is the last statement before
`return`).  The third component counts how many times the
embedding-and-search path ran during the call. -/
def query_history (searchFn : List String → String → Except Unit (List String))
    (q : PyStr) (now : Nat) (db : VDB) :
    Except VErr (List String) × VDB × Nat :=
  match validStr q with
  | none => (.error .invalidArgument, db, 0)
  | some s =>
    match cacheLookup db.cache s now with
    | some r => (.ok r, db, 0)
    | none =>
      match searchFn db.store_texts s with
      | .error _ => (.error .retrievalFailure, db, 1)
      | .ok r => (.ok r, { db with cache := cacheInsert db.cache s r now }, 1)

/-- `VectorDB.add_interaction` (store.py lines 93-114): validate both
messages (raising before any mutation), then save to the memory retriever
when enabled and append `"Human: ..."`, `"AI: ..."` to the vector store. -/
def add_interaction (human_msg ai_msg : PyStr) (db : VDB) :
    Except VErr Unit × VDB :=
  match validStr human_msg with
  | none => (.error .invalidArgument, db)
  | some h =>
    match validStr ai_msg with
    | none => (.error .invalidArgument, db)
    | some a =>
      let db1 := if db.use_memory
        then { db with memory_log := db.memory_log ++ [(h, a)] } else db
      (.ok (),
       { db1 with store_texts :=
           db1.store_texts ++ ["Human: " ++ h, "AI: " ++ a] })

/-- `VectorDB.add_message` (store.py lines 116-126): validate (raising
before any mutation), build `f"{role}: {message}"` when a truthy role is
given, then save to the memory retriever when enabled and append to the
vector store. -/
def add_message (message : PyStr) (role : Option String) (db : VDB) :
    Except VErr Unit × VDB :=
  match validStr message with
  | none => (.error .invalidArgument, db)
  | some m =>
    let full := match role with
      | some r => if r = "" then m else r ++ ": " ++ m
      | none => m
    let db1 := if db.use_memory
      then { db with memory_log := db.memory_log ++ [(full, "")] } else db
    (.ok (), { db1 with store_texts := db1.store_texts ++ [full] })

/-- The texts the re-initialized vector store starts from:
`texts = [initial_text] if initial_text else []` after
`initial_text or ""`. -/
def seedTexts : Option String → List String
  | none => []
  | some s => if s = "" then [] else [s]

/-- `VectorDB._initialize_vector_store` (store.py lines 47-65): builds a
fresh FAISS store over the seed texts and a fresh memory retriever (or
none), discarding all prior vectors and the prior memory log. -/
def initialize_vector_store (initial_text : Option String) (db : VDB) : VDB :=
  { db with store_texts := seedTexts initial_text, memory_log := [] }

/-- `VectorDB.clear` (store.py lines 128-133): re-initialize the vector
store with `initial_text or ""`, then purge the query cache. -/
def clear_vdb (initial_text : Option String) (db : VDB) : VDB :=
  { initialize_vector_store initial_text db with cache := [] }

/-- The suspension-point decomposition of the body of `VectorDB.clear`:
the method is `async` but contains no `await`, so under the cooperative
single-worker scheduling of the server its whole body — store
re-initialization *and* cache purge — runs as one uninterruptible
segment; no other task can observe a state between the two statements. -/
def clear_segments (initial_text : Option String) : List (VDB → VDB) :=
  [clear_vdb initial_text]

/-- C4: every empty or non-string input to `query_history`,
`add_interaction` (in either argument position), or `add_message` raises
`ValueError` and performs no state mutation — the vector store, memory log
and query cache are exactly as before the call, and the retrieval path is
not invoked. -/
theorem c4_invalid_input_no_mutation (x y : PyStr) (role : Option String)
    (db : VDB) (now : Nat)
    (f : List String → String → Except Unit (List String))
    (hx : validStr x = none) :
    query_history f x now db = (.error .invalidArgument, db, 0)
    ∧ add_interaction x y db = (.error .invalidArgument, db)
    ∧ add_interaction y x db = (.error .invalidArgument, db)
    ∧ add_message x role db = (.error .invalidArgument, db) := by
  refine ⟨?_, ?_, ?_, ?_⟩
  · simp [query_history, hx]
  · simp [add_interaction, hx]
  · cases hy : validStr y with
    | none => simp [add_interaction, hy]
    | some s => simp [add_interaction, hy, hx]
  · simp [add_message, hx]

/-- Witness for `c4_invalid_input_no_mutation` on a non-string input
against a populated adapter. -/
theorem c4_invalid_input_no_mutation_witness :
    validStr PyStr.nonStr = none
    ∧ query_history (fun _ _ => Except.ok []) PyStr.nonStr 0
        ⟨["t"], [("a", "b")], true, [⟨"c", ["d"], 0⟩]⟩
      = (Except.error VErr.invalidArgument,
         ⟨["t"], [("a", "b")], true, [⟨"c", ["d"], 0⟩]⟩, 0)
    ∧ add_interaction PyStr.nonStr (PyStr.str "ok")
        ⟨["t"], [("a", "b")], true, [⟨"c", ["d"], 0⟩]⟩
      = (Except.error VErr.invalidArgument,
         ⟨["t"], [("a", "b")], true, [⟨"c", ["d"], 0⟩]⟩)
    ∧ add_interaction (PyStr.str "ok") PyStr.nonStr
        ⟨["t"], [("a", "b")], true, [⟨"c", ["d"], 0⟩]⟩
      = (Except.error VErr.invalidArgument,
         ⟨["t"], [("a", "b")], true, [⟨"c", ["d"], 0⟩]⟩)
    ∧ add_message PyStr.nonStr none
        ⟨["t"], [("a", "b")], true, [⟨"c", ["d"], 0⟩]⟩
      = (Except.error VErr.invalidArgument,
         ⟨["t"], [("a", "b")], true, [⟨"c", ["d"], 0⟩]⟩) := by
  have h := c4_invalid_input_no_mutation PyStr.nonStr (PyStr.str "ok") none
    ⟨["t"], [("a", "b")], true, [⟨"c", ["d"], 0⟩]⟩ 0
    (fun _ _ => Except.ok []) rfl
  exact ⟨rfl, h.1, h.2.1, h.2.2.1, h.2.2.2⟩

/-- C5: for a non-empty query that misses the cache and retrieves
successfully, the first call runs the embedding-and-search path once and
caches the result; any second call within the TTL window (with no
intervening clear) returns the same result from the cache without running
that path again and without changing the state; and when retrieval raises,
nothing is cached — the state is returned unchanged. -/
theorem c5_query_cache
    (f : List String → String → Except Unit (List String)) (q : PyStr)
    (s : String) (db : VDB) (t1 : Nat) (r : List String)
    (hq : validStr q = some s)
    (hmiss : cacheLookup db.cache s t1 = none)
    (hok : f db.store_texts s = .ok r) :
    (query_history f q t1 db).1 = .ok r
    ∧ (query_history f q t1 db).2.2 = 1
    ∧ (query_history f q t1 db).2.1
        = { db with cache := cacheInsert db.cache s r t1 }
    ∧ (∀ t2, t2 < t1 + QUERY_CACHE_TTL →
        query_history f q t2 (query_history f q t1 db).2.1
          = (.ok r, (query_history f q t1 db).2.1, 0))
    ∧ (∀ g : List String → String → Except Unit (List String),
        g db.store_texts s = .error () →
        query_history g q t1 db = (.error .retrievalFailure, db, 1)) := by
  have h1 : query_history f q t1 db
      = (.ok r, { db with cache := cacheInsert db.cache s r t1 }, 1) := by
    simp [query_history, hq, hmiss, hok]
  refine ⟨by rw [h1], by rw [h1], by rw [h1], ?_, ?_⟩
  · intro t2 ht2
    rw [h1]
    have hhit : cacheLookup (cacheInsert db.cache s r t1) s t2 = some r := by
      unfold cacheInsert
      simp only [cacheLookup]
      rw [if_pos ⟨trivial, ht2⟩]
    simp [query_history, hq, hhit]
  · intro g hg
    simp [query_history, hq, hmiss, hg]

/-- Witness for `c5_query_cache`: a fresh adapter queried at t = 0 and
re-queried at t = 30 < 60. -/
theorem c5_query_cache_witness :
    validStr (PyStr.str "hi") = some "hi"
    ∧ cacheLookup (⟨[], [], false, []⟩ : VDB).cache "hi" 0 = none
    ∧ query_history (fun _ _ => Except.ok ["h"]) (PyStr.str "hi") 30
        (query_history (fun _ _ => Except.ok ["h"]) (PyStr.str "hi") 0
          ⟨[], [], false, []⟩).2.1
      = (Except.ok ["h"],
         (query_history (fun _ _ => Except.ok ["h"]) (PyStr.str "hi") 0
           ⟨[], [], false, []⟩).2.1, 0) := by
  have h := c5_query_cache (fun _ _ => Except.ok ["h"]) (PyStr.str "hi")
    "hi" ⟨[], [], false, []⟩ 0 ["h"] rfl rfl rfl
  exact ⟨rfl, rfl, h.2.2.2.1 30 (by decide)⟩

/-- C6: `clear` re-seeds the index and purges the cache as one atomic
step — the method body holds no suspension point, so it is a single
segment under cooperative scheduling, embedded as one state
transformation; after it, the cache is empty and the store holds exactly
the seed texts, so any `query_history` (for previously-stored queries in
particular) can only return results drawn from the new seed text, never
pre-clear content, for any retrieval collaborator that returns stored
texts. -/
theorem c6_clear_atomic (seed : Option String) (db : VDB)
    (f : List String → String → Except Unit (List String))
    (hf : ∀ (ts : List String) (s : String) (r : List String),
        f ts s = .ok r → ∀ x ∈ r, x ∈ ts) :
    clear_segments seed = [clear_vdb seed]
    ∧ (clear_vdb seed db).cache = []
    ∧ (clear_vdb seed db).store_texts = seedTexts seed
    ∧ (∀ (q : PyStr) (strq : String) (now : Nat) (r : List String),
        validStr q = some strq →
        (query_history f q now (clear_vdb seed db)).1 = .ok r →
        ∀ x ∈ r, x ∈ seedTexts seed) := by
  refine ⟨rfl, rfl, rfl, ?_⟩
  intro q strq now r hq hr
  cases hsf : f (seedTexts seed) strq with
  | error e =>
    have heval : query_history f q now (clear_vdb seed db)
        = (.error .retrievalFailure, clear_vdb seed db, 1) := by
      simp [query_history, hq, cacheLookup, clear_vdb,
        initialize_vector_store, hsf]
    rw [heval] at hr
    exact absurd hr (by simp)
  | ok rr =>
    have heval : (query_history f q now (clear_vdb seed db)).1
        = .ok rr := by
      simp [query_history, hq, cacheLookup, clear_vdb,
        initialize_vector_store, hsf]
    rw [heval] at hr
    have hrr : rr = r := by simpa using hr
    subst hrr
    exact hf (seedTexts seed) strq rr hsf

/-- Witness for `c6_clear_atomic`: clearing a populated adapter with a new
seed, then querying a previously-cached query. -/
theorem c6_clear_atomic_witness :
    (clear_vdb (some "seed text")
        ⟨["old A"], [("q", "a")], true, [⟨"oldq", ["old A"], 0⟩]⟩).cache = []
    ∧ (clear_vdb (some "seed text")
        ⟨["old A"], [("q", "a")], true,
          [⟨"oldq", ["old A"], 0⟩]⟩).store_texts
        = seedTexts (some "seed text")
    ∧ "seed text" ∈ seedTexts (some "seed text") := by
  have hf : ∀ (ts : List String) (s : String) (r : List String),
      (fun (ts : List String) (_ : String) =>
        (Except.ok ts : Except Unit (List String))) ts s = Except.ok r →
      ∀ x ∈ r, x ∈ ts := by
    intro ts s r h
    simp only at h
    cases h
    intro x hx
    exact hx
  have h := c6_clear_atomic (some "seed text")
    ⟨["old A"], [("q", "a")], true, [⟨"oldq", ["old A"], 0⟩]⟩
    (fun ts _ => (Except.ok ts : Except Unit (List String))) hf
  refine ⟨h.2.1, h.2.2.1, ?_⟩
  exact h.2.2.2 (PyStr.str "oldq") "oldq" 10 ["seed text"] rfl rfl
    "seed text" (by decide)

/-! ### Orchestrator: `ResearchAssistant` (src/server/src/features/explore/chat.py) -/

/-- The state touched by `ResearchAssistant.generate_answer` and its
cleanup: the texts in the session's `VectorDB` similarity index, the
in-memory `self.topic`, the persisted `ExploreChat.topic` column, and the
persisted `ExploreChatMessage` rows as `(user_question,
assistant_answer)`. -/
structure AssistantState where
  vector_texts : List String
  topic : Option String
  chat_topic_db : Option String
  db_messages : List (String × String)
  deriving Repr, DecidableEq

/-- `ResearchAssistant._set_chat_topic` (explore/chat.py lines 127-147):
derives a short topic label for the question via a lightweight model call
(`labelModel`), stores it on `self.topic` and persists it with
`ExploreChat.update_chat_topic`. -/
def set_chat_topic (labelModel : String → String) (question : String)
    (st : AssistantState) : AssistantState :=
  { st with topic := some (labelModel question),
            chat_topic_db := some (labelModel question) }

/-- `ResearchAssistant._reflect_db_changes` (explore/chat.py lines
109-125), the `finally` cleanup of `generate_answer`: derive and persist
the topic when `self.topic is None`, then persist the chat message pairing
the question with `"".join(machine_answer)`
(`ExploreChatMessage.update_chat_message`).  Nothing here writes to the
`VectorDB`. -/
def reflect_db_changes (labelModel : String → String) (message : String)
    (machine_answer : List String) (st : AssistantState) : AssistantState :=
  let st1 := if st.topic = none
    then set_chat_topic labelModel message st else st
  { st1 with db_messages :=
      st1.db_messages ++ [(message, joinStr machine_answer)] }

/-- `ResearchAssistant.generate_answer` (explore/chat.py lines 77-107) for
a fully drained stream: streams the chunks of `generate_response`,
collecting them in `machine_answer`, then in the `finally` block runs
`_reflect_db_changes(options.question, machine_answer)`.  Returns the
yielded chunks and the state after the cleanup. -/
def generate_answer (T : Nat) (labelModel : String → String)
    (question : String) (s0 : SysState) (evs : List Ev)
    (st : AssistantState) : List String × AssistantState :=
  let chunks := (generate_text T s0 evs).1
  (chunks, reflect_db_changes labelModel question chunks st)

/-- C3: claim parts (a) and (b) hold, but part (c) fails on the code —
`generate_answer` never feeds the completed interaction back into the
memory adapter.  Its cleanup persists the concatenated answer against the
question and derives-and-persists a topic label on the first exchange, but
it contains no `vector_db.add_interaction` / `add_message` call (despite
the method's own docstring step 5, "Saves the complete interaction to the
vector store"), so the similarity index is left exactly as it was: for a
fresh session the index is still empty after the first exchange, and a
subsequent `query_history` cannot retrieve that interaction's text. -/
theorem c3_interaction_not_fed_back :
    (∀ (T : Nat) (lm : String → String) (q : String) (s0 : SysState)
        (evs : List Ev) (st : AssistantState),
      (generate_answer T lm q s0 evs st).2.vector_texts = st.vector_texts)
    ∧ (generate_answer DEFAULT_BUFFER_SIZE (fun _ => "Hash Tables")
        "What is a hash table?" ⟨false, false⟩
        (fragEvs ["A hash table is a data structure."])
        ⟨[], none, none, []⟩).2
      = ⟨[], some "Hash Tables", some "Hash Tables",
          [("What is a hash table?", "A hash table is a data structure.")]⟩ := by
  constructor
  · intro T lm q s0 evs st
    simp only [generate_answer, reflect_db_changes, set_chat_topic]
    by_cases ht : st.topic = none
    · rw [if_pos ht]
    · rw [if_neg ht]
  · rfl

/-! ### Session registries (explore/service.py, threads/service.py) -/

/-- The state of a service-level session registry
(`ResearchAssistantService.cache : LFUCache`,
`ThreadContentChatService.thread_content_chats : LRUCache`): the cached
id-to-orchestrator entries, plus a counter of how many orchestrator
reconstructions (`ResearchAssistant.create` / `ThreadIDChat.create`, each
replaying persisted history into a fresh memory adapter) have run.  Each
reconstruction yields a distinct instance, identified by its creation
index. -/
structure Registry where
  cache : List (String × Nat)
  creations : Nat
  deriving Repr, DecidableEq

/-- The get-or-create pattern of
`ThreadContentChatService.__get_chat_generator` (threads/service.py lines
262-277) and `ResearchAssistantService._load_chat_messages` +
`cache.get` (explore/service.py lines 136-153, 79-80): if the id is not
cached, reconstruct an orchestrator by replay and cache it; return the
cached instance.  (Two back-to-back calls on the same id never overflow
the caches' capacities of 1000 / 100, so eviction cannot intervene.) -/
def get_or_create (st : Registry) (id : String) : Nat × Registry :=
  match st.cache.find? (fun e => e.1 == id) with
  | some e => (e.2, st)
  | none =>
    (st.creations,
     ⟨(id, st.creations) :: st.cache, st.creations + 1⟩)

/-- C8: two sequential `get_or_create` lookups for the same session id
return the same in-memory orchestrator instance, the second lookup changes
nothing, the pair performs at most one reconstruction-by-replay, and the
second lookup performs none (it does not rebuild the memory adapter). -/
theorem c8_registry_idempotent (st : Registry) (id : String) :
    (get_or_create (get_or_create st id).2 id).1 = (get_or_create st id).1
    ∧ (get_or_create (get_or_create st id).2 id).2 = (get_or_create st id).2
    ∧ (get_or_create st id).2.creations ≤ st.creations + 1
    ∧ (get_or_create (get_or_create st id).2 id).2.creations
        = (get_or_create st id).2.creations := by
  cases hfind : st.cache.find? (fun e => e.1 == id) with
  | some e =>
    have h1 : get_or_create st id = (e.2, st) := by
      simp [get_or_create, hfind]
    rw [h1]
    simp [get_or_create, hfind]
  | none =>
    have h1 : get_or_create st id
        = (st.creations, ⟨(id, st.creations) :: st.cache, st.creations + 1⟩) := by
      simp [get_or_create, hfind]
    rw [h1]
    have hhead : (((id, st.creations) :: st.cache).find?
        (fun e => e.1 == id)) = some (id, st.creations) :=
      List.find?_cons_of_pos _ (by simp)
    simp [get_or_create, hhead]

/-- Witness for `c7_model_error_behavior` on a concrete errored stream. -/
theorem c7_model_error_behavior_witness :
    (generate_text 2 ⟨false, false⟩
        (fragEvs ["abc"] ++ Ev.err :: [])).2.2 = Outcome.failed
    ∧ 2 ≤ ("abc" : String).length := by
  have h := c7_model_error_behavior 2 ⟨false, false⟩ ["abc"] []
  exact ⟨h.1, h.2.1 "abc" (by decide)⟩
